import Mathlib

/-!
Verification of the HowzatForData cricket data pipeline.

Shallow embedding of the two core transformation stages of the pipeline:
the JSON-to-row delivery flattener (`src/data_ingestor.py`,
`CricketDataIngestor`) and the preprocessor with its temporal filter and
outcome validator (`src/data_preprocessor.py`, `CricketDataPreprocessor`),
plus the CLI error boundary of `main.py`.

Match documents are modelled structurally: every field access the Python
code performs with `.get` is an `Option`-valued field here.  DataFrames are
modelled as lists of typed row records; pandas `NaN` cells are `Option.none`.
Match-level metadata fields that none of the verified properties mention
(toss, officials, event, season, venue, extras of the `meta` block, ...)
are omitted from the row type: the code copies them verbatim into every
row exactly like the fields that are modelled.
-/

namespace Howzat

/-- A cell of the `start_date` column.  The ingestor writes either a raw
date string (`dates[0]`) or null; `pd.to_datetime` rewrites the column to
datetime values (`DateCell.date`), with null becoming `NaT` (kept as
`DateCell.null`). -/
inductive DateCell where
  | null
  | str (s : String)
  | date (y m d : Nat)
deriving DecidableEq, Repr

/-- A fielder entry of a wicket block: the corpora store either a bare
name string or an object with an optional `name` field
(`_extract_fielder_names` handles both). -/
inductive Fielder where
  | str (s : String)
  | obj (name : Option String)
deriving DecidableEq, Repr

/-- One entry of a delivery's `wickets` list. -/
structure Wicket where
  player_out : Option String
  kind : Option String
  fielders : List Fielder
deriving DecidableEq, Repr

/-- The `runs` block of a delivery. -/
structure DeliveryRuns where
  batter : Option Int
  extras : Option Int
  total : Option Int
deriving DecidableEq, Repr

/-- The `extras` block of a delivery. -/
structure DeliveryExtras where
  wides : Option Int
  noballs : Option Int
  byes : Option Int
  legbyes : Option Int
  penalty : Option Int
deriving DecidableEq, Repr

/-- The `review` block of a delivery (absent or empty dict is `none`:
Python tests the dict for truthiness). -/
structure Review where
  side : Option String
  umpire : Option String
  batter : Option String
  decision : Option String
  kind : Option String
deriving DecidableEq, Repr

/-- One delivery of a match document. -/
structure Delivery where
  batter : Option String
  bowler : Option String
  non_striker : Option String
  runs : DeliveryRuns
  extras : DeliveryExtras
  wickets : List Wicket
  review : Option Review
deriving DecidableEq, Repr

/-- One over of an innings: the `over` number as given by the source plus
the ordered deliveries. -/
structure OverBlock where
  over : Option Int
  deliveries : List Delivery
deriving DecidableEq, Repr

/-- One innings: the batting team (possibly missing) and the ordered overs. -/
structure InningsBlock where
  team : Option String
  overs : List OverBlock
deriving DecidableEq, Repr

/-- A match document: the `info` fields the verified properties touch,
plus the ordered innings. -/
structure MatchDocument where
  teams : List String
  dates : List String
  outcome_winner : Option String
  outcome_result : Option String
  innings : List InningsBlock
deriving DecidableEq, Repr

/-- Match-level metadata extracted once per document
(`CricketDataIngestor._extract_match_info`), restricted to the fields the
verified properties mention; the remaining ~25 scalar fields are copied
into rows the same way. -/
structure MatchInfo where
  match_id : String
  start_date : DateCell
  team_a : Option String
  team_b : Option String
  outcome_winner : Option String
  outcome_result : Option String
deriving DecidableEq, Repr

/-- `CricketDataIngestor._extract_match_info`: `team_a`/`team_b` are the
first two entries of the team list (null when absent), `start_date` is the
first date string (null when the list is empty), outcome fields are copied. -/
def _extract_match_info (data : MatchDocument) (match_id : String) : MatchInfo :=
  { match_id := match_id
    start_date := match data.dates with
      | [] => DateCell.null
      | d :: _ => DateCell.str d
    team_a := data.teams[0]?
    team_b := data.teams[1]?
    outcome_winner := data.outcome_winner
    outcome_result := data.outcome_result }

/-- One flattened row of the ingested dataset (`DeliveryRecord`): match
metadata denormalized onto innings context, ball position, players, runs,
extras, the wicket block and the review block. -/
structure BallRecord where
  match_id : String
  start_date : DateCell
  team_a : Option String
  team_b : Option String
  outcome_winner : Option String
  outcome_result : Option String
  innings_num : Nat
  batting_team : Option String
  bowling_team : Option String
  over : Option Int
  ball : Nat
  batter : Option String
  bowler : Option String
  non_striker : Option String
  runs_batter : Option Int
  runs_extras : Option Int
  runs_total : Option Int
  extras_wides : Option Int
  extras_noballs : Option Int
  extras_byes : Option Int
  extras_legbyes : Option Int
  extras_penalty : Option Int
  is_wicket : Nat
  player_out : Option String
  dismissal_kind : Option String
  fielder_1 : Option String
  fielder_2 : Option String
  review_by : Option String
  review_umpire : Option String
  review_batter : Option String
  review_decision : Option String
  review_type : Option String
deriving DecidableEq, Repr

/-- `CricketDataIngestor._extract_fielder_names`: bare strings are taken
as-is; objects contribute their `name` field when it is present and
non-empty (Python truthiness of the string). -/
def _extract_fielder_names (fielders_list : List Fielder) : List String :=
  fielders_list.foldl
    (fun names fielder =>
      match fielder with
      | Fielder.str s => names ++ [s]
      | Fielder.obj name =>
        match name with
        | some n => if n = "" then names else names ++ [n]
        | none => names)
    []

/-- `CricketDataIngestor._parse_delivery`: build one flat row from a
delivery and its context.  The wicket block is taken from the first entry
of the `wickets` list when it is non-empty. -/
def _parse_delivery (delivery : Delivery) (match_info : MatchInfo)
    (innings_num : Nat) (batting_team bowling_team : Option String)
    (over_num : Option Int) (ball_idx : Nat) : BallRecord :=
  let fielder_names := match delivery.wickets with
    | [] => []
    | w :: _ => _extract_fielder_names w.fielders
  { match_id := match_info.match_id
    start_date := match_info.start_date
    team_a := match_info.team_a
    team_b := match_info.team_b
    outcome_winner := match_info.outcome_winner
    outcome_result := match_info.outcome_result
    innings_num := innings_num
    batting_team := batting_team
    bowling_team := bowling_team
    over := over_num
    ball := ball_idx + 1
    batter := delivery.batter
    bowler := delivery.bowler
    non_striker := delivery.non_striker
    runs_batter := delivery.runs.batter
    runs_extras := delivery.runs.extras
    runs_total := delivery.runs.total
    extras_wides := delivery.extras.wides
    extras_noballs := delivery.extras.noballs
    extras_byes := delivery.extras.byes
    extras_legbyes := delivery.extras.legbyes
    extras_penalty := delivery.extras.penalty
    is_wicket := match delivery.wickets with
      | [] => 0
      | _ :: _ => 1
    player_out := match delivery.wickets with
      | [] => none
      | w :: _ => w.player_out
    dismissal_kind := match delivery.wickets with
      | [] => none
      | w :: _ => w.kind
    fielder_1 := fielder_names[0]?
    fielder_2 := fielder_names[1]?
    review_by := match delivery.review with
      | some r => r.side
      | none => none
    review_umpire := match delivery.review with
      | some r => r.umpire
      | none => none
    review_batter := match delivery.review with
      | some r => r.batter
      | none => none
    review_decision := match delivery.review with
      | some r => r.decision
      | none => none
    review_type := match delivery.review with
      | some r => r.kind
      | none => none }

/-- Inner loop of `_extract_deliveries` over the deliveries of one over:
`ball_idx` enumerates deliveries from 0, the stored `ball` is
`ball_idx + 1`. -/
def flattenDeliveries (match_info : MatchInfo) (innings_num : Nat)
    (batting_team bowling_team : Option String) (over_num : Option Int) :
    Nat → List Delivery → List BallRecord
  | _, [] => []
  | ball_idx, d :: rest =>
    _parse_delivery d match_info innings_num batting_team bowling_team
        over_num ball_idx ::
      flattenDeliveries match_info innings_num batting_team bowling_team
        over_num (ball_idx + 1) rest

/-- Middle loop of `_extract_deliveries` over the overs of one innings. -/
def flattenOvers (match_info : MatchInfo) (innings_num : Nat)
    (batting_team bowling_team : Option String) :
    List OverBlock → List BallRecord
  | [] => []
  | over_data :: rest =>
    flattenDeliveries match_info innings_num batting_team bowling_team
        over_data.over 0 over_data.deliveries ++
      flattenOvers match_info innings_num batting_team bowling_team rest

/-- Outer loop of `_extract_deliveries` over the innings list:
`innings_idx` is the 0-based position, `innings_num = innings_idx + 1`.
The bowling team is whichever of `team_a`/`team_b` the batting team is
not; comparisons are Python `==` on possibly-null values. -/
def flattenInnings (match_info : MatchInfo) :
    Nat → List InningsBlock → List BallRecord
  | _, [] => []
  | innings_idx, innings :: rest =>
    let batting_team := innings.team
    let bowling_team :=
      if batting_team = match_info.team_a then match_info.team_b
      else if batting_team = match_info.team_b then match_info.team_a
      else none
    flattenOvers match_info (innings_idx + 1) batting_team bowling_team
        innings.overs ++
      flattenInnings match_info (innings_idx + 1) rest

/-- `CricketDataIngestor._extract_deliveries`: flatten all innings of a
document (an empty innings list yields no rows; the code's early return
for that case produces the same empty list). -/
def _extract_deliveries (data : MatchDocument) (match_info : MatchInfo) :
    List BallRecord :=
  flattenInnings match_info 0 data.innings

/-- One file of the source directory: either a document that fails to
parse or flatten (any exception inside `_parse_single_file`), or a
successfully parsed match document with its filename-stem `match_id`. -/
inductive SourceFile where
  | bad (name : String)
  | good (name : String) (doc : MatchDocument)
deriving DecidableEq, Repr

/-- `CricketDataIngestor._parse_single_file`: `none` models the exception
path; a parsed document yields its flattened rows (an empty result is a
valid, empty frame, logged as a warning but not an error). -/
def _parse_single_file : SourceFile → Option (List BallRecord)
  | SourceFile.bad _ => none
  | SourceFile.good name doc =>
    some (_extract_deliveries doc (_extract_match_info doc name))

/-- Result of `CricketDataIngestor.ingest_all`: the concatenated rows,
the per-file success/error counters, and whether the aggregate
`UserWarning` was raised. -/
structure IngestResult where
  rows : List BallRecord
  success_count : Nat
  error_count : Nat
  warned : Bool
deriving DecidableEq, Repr

/-- `CricketDataIngestor.ingest_all`: each file is parsed under a
per-file exception handler; failures are counted and skipped, successes
are collected in order.  After the loop a `UserWarning` is raised exactly
when at least one file failed; empty frames are dropped and the rest
concatenated (dropping a file's all-null columns does not change any
row's field values once the frames are recombined, so it is invisible at
this level). -/
def ingest_all (files : List SourceFile) : IngestResult :=
  let outcomes := files.map _parse_single_file
  let all_dfs := outcomes.filterMap id
  let error_count := outcomes.countP Option.isNone
  let non_empty_dfs := all_dfs.filter (fun df => !df.isEmpty)
  { rows := non_empty_dfs.flatten
    success_count := all_dfs.length
    error_count := error_count
    warned := decide (0 < error_count) }

/-- The two kinds of run-aborting failure `main` distinguishes in its
handlers: `FileNotFoundError` (missing input) and every other exception. -/
inductive PipelineError where
  | fileNotFound (msg : String)
  | other (msg : String)
deriving DecidableEq, Repr

/-- `CricketDataIngestor.__init__` followed by `ingest_all`: the
constructor raises `FileNotFoundError` when the directory holds no
eligible (`*.json`) files; otherwise the whole pass runs and every
per-file failure is absorbed by `ingest_all`. -/
def cmd_ingest (files : List SourceFile) : Except PipelineError IngestResult :=
  match files with
  | [] => Except.error (PipelineError.fileNotFound "No JSON files found")
  | _ :: _ => Except.ok (ingest_all files)

/-- What `main`'s exception handlers do with a raised error: the exit
status passed to `sys.exit`, and whether the log line carries a full
traceback (`logger.exception`) rather than a plain message
(`logger.error`). -/
structure ExitOutcome where
  code : Nat
  traceback : Bool
deriving DecidableEq, Repr

/-- The `try/except` boundary of `main`: a normal return exits without an
error status; `FileNotFoundError` is logged plainly and exits 1; any
other exception is logged with traceback and exits 1. -/
def main_exit : Except PipelineError Unit → Option ExitOutcome
  | Except.ok _ => none
  | Except.error (PipelineError.fileNotFound _) =>
    some (ExitOutcome.mk 1 false)
  | Except.error (PipelineError.other _) =>
    some (ExitOutcome.mk 1 true)

/-- Split a character list on dashes (keeping empty groups), mirroring a
split of the ISO date string on its separators. -/
def splitOnDash : List Char → List (List Char)
  | [] => [[]]
  | c :: rest =>
    if c = '-' then [] :: splitOnDash rest
    else
      match splitOnDash rest with
      | [] => [[c]]
      | g :: gs => (c :: g) :: gs

/-- Read a non-empty all-digit character group as a number. -/
def digitsToNat? (cs : List Char) : Option Nat :=
  match cs with
  | [] => none
  | _ =>
    cs.foldl
      (fun acc c =>
        acc.bind (fun n =>
          if c.isDigit then some (n * 10 + (c.toNat - 48)) else none))
      (some 0)

/-- Model of the date-parsing library (`pd.to_datetime` applied to one
cell) on the ISO `YYYY-MM-DD` strings the corpora use: three dash-joined
numeric components with a plausible month and day.  `none` is the
exception path for an unparseable string. -/
def parseDate (s : String) : Option (Nat × Nat × Nat) :=
  match (splitOnDash s.toList).map digitsToNat? with
  | [some y, some m, some d] =>
    if 1 ≤ m ∧ m ≤ 12 ∧ 1 ≤ d ∧ d ≤ 31 then some (y, m, d) else none
  | _ => none

/-- `pd.to_datetime` on one `start_date` cell: null becomes `NaT` (kept
as `DateCell.null`), a string is parsed (raising on failure, the `none`
branch), an already-converted date is unchanged. -/
def to_datetime : DateCell → Option DateCell
  | DateCell.null => some DateCell.null
  | DateCell.str s =>
    (parseDate s).map (fun p => DateCell.date p.1 p.2.1 p.2.2)
  | DateCell.date y m d => some (DateCell.date y m d)

/-- The column assignment `df["start_date"] = pd.to_datetime(df["start_date"])`:
every row's `start_date` cell is converted; one unparseable cell aborts
the whole conversion (the library raises for the run). -/
def convertDates : List BallRecord → Option (List BallRecord)
  | [] => some []
  | r :: rest =>
    match to_datetime r.start_date with
    | none => none
    | some c =>
      (convertDates rest).map (fun tail => { r with start_date := c } :: tail)

/-- The row predicate of `df[df["start_date"].dt.year >= year]`: a `NaT`
cell has a null year, and any comparison against it is false, so only
converted dates with year at least the cutoff survive. -/
def keepsRow (year : Nat) (r : BallRecord) : Bool :=
  match r.start_date with
  | DateCell.date y _ _ => decide (year ≤ y)
  | _ => false

/-- `CricketDataPreprocessor._modern_data_filter`: convert the
`start_date` column to datetimes, then keep exactly the rows whose year
is at least the cutoff. -/
def _modern_data_filter (df : List BallRecord) (year : Nat) :
    Option (List BallRecord) :=
  (convertDates df).map (fun converted => converted.filter (keepsRow year))

/-- One row of the per-match summary built by `_calculate_match_totals`. -/
structure MatchSummary where
  match_id : String
  team_a : Option String
  team_b : Option String
  outcome_winner : Option String
  outcome_result : Option String
  team_a_runs : Int
  team_b_runs : Int
  team_a_wickets : Int
  team_b_wickets : Int
deriving DecidableEq, Repr

/-- The distinct `match_id` values of a dataset, in first-occurrence
order.  (pandas `groupby` sorts its keys; none of the verified
properties depend on the order of summary rows.) -/
def matchIds (df : List BallRecord) : List String :=
  (df.map (fun r => r.match_id)).foldl
    (fun acc m => if m ∈ acc then acc else acc ++ [m]) []

/-- The groupby-`first` aggregate: the first non-null value of the field
over the match's rows (pandas `GroupBy.first` skips nulls). -/
def firstValue (df : List BallRecord) (m : String)
    (field : BallRecord → Option String) : Option String :=
  ((df.filter (fun r => r.match_id = m)).filterMap field).head?

/-- A team's total over the match: the rows of the `(match_id,
batting_team)` group summed over `value` (null cells contribute 0, as
pandas `sum` skips them).  A null team name matches no group (both the
groupby, which drops null keys, and the `==` filter reject it), giving
the loop's `else 0` default. -/
def teamTotal (df : List BallRecord) (m : String) (team : Option String)
    (value : BallRecord → Int) : Int :=
  match team with
  | none => 0
  | some t =>
    ((df.filter (fun r => r.match_id = m ∧ r.batting_team = some t)).map
      value).sum

/-- `CricketDataPreprocessor._calculate_match_totals`: one summary row
per match, carrying the first-seen metadata fields and each team's
summed `runs_total` and `is_wicket`. -/
def _calculate_match_totals (df : List BallRecord) : List MatchSummary :=
  (matchIds df).map (fun m =>
    let team_a := firstValue df m (fun r => r.team_a)
    let team_b := firstValue df m (fun r => r.team_b)
    { match_id := m
      team_a := team_a
      team_b := team_b
      outcome_winner := firstValue df m (fun r => r.outcome_winner)
      outcome_result := firstValue df m (fun r => r.outcome_result)
      team_a_runs := teamTotal df m team_a (fun r => r.runs_total.getD 0)
      team_b_runs := teamTotal df m team_b (fun r => r.runs_total.getD 0)
      team_a_wickets := teamTotal df m team_a (fun r => (r.is_wicket : Int))
      team_b_wickets := teamTotal df m team_b (fun r => (r.is_wicket : Int)) })

/-- One row of the discrepancy report of `_find_outcome_discrepancies`. -/
structure Discrepancy where
  match_id : String
  team_a : Option String
  team_b : Option String
  team_a_runs : Int
  team_b_runs : Int
  calculated_winner : Option String
  outcome_winner : Option String
  outcome_result : Option String
deriving DecidableEq, Repr

/-- One iteration of the loop in `_find_outcome_discrepancies`: skip the
row when no winner is recorded or the result is a draw/tie/no-result;
otherwise compute the winner by run totals (null on equal totals) and
emit a discrepancy row exactly when it differs from the recorded winner. -/
def discrepancy_of_row (row : MatchSummary) : Option Discrepancy :=
  if row.outcome_winner = none ∨
      row.outcome_result ∈ [some "draw", some "tie", some "no result"] then
    none
  else
    let calculated_winner :=
      if row.team_a_runs > row.team_b_runs then row.team_a
      else if row.team_b_runs > row.team_a_runs then row.team_b
      else none
    if calculated_winner ≠ row.outcome_winner then
      some { match_id := row.match_id
             team_a := row.team_a
             team_b := row.team_b
             team_a_runs := row.team_a_runs
             team_b_runs := row.team_b_runs
             calculated_winner := calculated_winner
             outcome_winner := row.outcome_winner
             outcome_result := row.outcome_result }
    else none

/-- `CricketDataPreprocessor._find_outcome_discrepancies`: the loop over
summary rows collecting the per-row discrepancies. -/
def _find_outcome_discrepancies (match_summary : List MatchSummary) :
    List Discrepancy :=
  match_summary.filterMap discrepancy_of_row

/-- `CricketDataPreprocessor.validate_match_outcomes`: totals then
comparison, over the preprocessor's stored dataset `self.df`. -/
def validate_match_outcomes (df : List BallRecord) : List Discrepancy :=
  _find_outcome_discrepancies (_calculate_match_totals df)

/-- `CricketDataPreprocessor.clean_data` on a preprocessor holding
dataset `df`: filter a copy of `df` by the cutoff year, run the outcome
validator — which reads `self.df`, the unfiltered dataset — and return
the filtered rows.  The pair carries both the returned dataset and the
discrepancy set the validator produced (the code only logs the latter). -/
def clean_data (df : List BallRecord) (modern_data_filter_year : Nat) :
    Option (List BallRecord × List Discrepancy) :=
  (_modern_data_filter df modern_data_filter_year).map
    (fun filtered => (filtered, validate_match_outcomes df))

/-! ### Concrete fixtures used by witnesses and counterexamples -/

/-- A delivery with every optional field absent. -/
def blankDelivery : Delivery :=
  { batter := none, bowler := none, non_striker := none
    runs := { batter := none, extras := none, total := none }
    extras :=
      { wides := none, noballs := none, byes := none, legbyes := none
        penalty := none }
    wickets := [], review := none }

/-- A row with every optional field absent. -/
def blankRecord : BallRecord :=
  { match_id := "m1", start_date := DateCell.null
    team_a := none, team_b := none
    outcome_winner := none, outcome_result := none
    innings_num := 1, batting_team := none, bowling_team := none
    over := none, ball := 1
    batter := none, bowler := none, non_striker := none
    runs_batter := none, runs_extras := none, runs_total := none
    extras_wides := none, extras_noballs := none, extras_byes := none
    extras_legbyes := none, extras_penalty := none
    is_wicket := 0
    player_out := none, dismissal_kind := none
    fielder_1 := none, fielder_2 := none
    review_by := none, review_umpire := none, review_batter := none
    review_decision := none, review_type := none }

/-! ### Totals and positional order of the flattener -/

/-- Number of deliveries of a document, summed across all innings and
overs. -/
def totalDeliveries (data : MatchDocument) : Nat :=
  (data.innings.map
    (fun inn => (inn.overs.map (fun ov => ov.deliveries.length)).sum)).sum

/-- The `(innings_num, over, ball)` positions of a document in document
order: by innings, then by over within the innings, then by delivery
within the over. -/
def documentOrder (data : MatchDocument) : List (Nat × Option Int × Nat) :=
  (data.innings.enum.map (fun p =>
    ((p.2.overs.map (fun ov =>
      ov.deliveries.enum.map (fun q => (p.1 + 1, ov.over, q.1 + 1)))).flatten))).flatten

lemma flattenDeliveries_map_position (mi : MatchInfo) (inum : Nat)
    (bt bw : Option String) (onum : Option Int) :
    ∀ (n : Nat) (ds : List Delivery),
      (flattenDeliveries mi inum bt bw onum n ds).map
          (fun r => (r.innings_num, r.over, r.ball)) =
        (ds.enumFrom n).map (fun q => (inum, onum, q.1 + 1))
  | _, [] => rfl
  | n, d :: rest => by
    simp [flattenDeliveries, _parse_delivery, List.enumFrom,
      flattenDeliveries_map_position mi inum bt bw onum (n + 1) rest]

lemma flattenDeliveries_length (mi : MatchInfo) (inum : Nat)
    (bt bw : Option String) (onum : Option Int) :
    ∀ (n : Nat) (ds : List Delivery),
      (flattenDeliveries mi inum bt bw onum n ds).length = ds.length
  | _, [] => rfl
  | n, _ :: rest => by
    simp [flattenDeliveries,
      flattenDeliveries_length mi inum bt bw onum (n + 1) rest]

lemma flattenOvers_map_position (mi : MatchInfo) (inum : Nat)
    (bt bw : Option String) :
    ∀ ovs : List OverBlock,
      (flattenOvers mi inum bt bw ovs).map
          (fun r => (r.innings_num, r.over, r.ball)) =
        ((ovs.map (fun ov =>
          ov.deliveries.enum.map (fun q => (inum, ov.over, q.1 + 1)))).flatten)
  | [] => rfl
  | ov :: rest => by
    simp [flattenOvers, flattenOvers_map_position mi inum bt bw rest,
      flattenDeliveries_map_position mi inum bt bw ov.over 0 ov.deliveries,
      List.enum]

lemma flattenOvers_length (mi : MatchInfo) (inum : Nat)
    (bt bw : Option String) :
    ∀ ovs : List OverBlock,
      (flattenOvers mi inum bt bw ovs).length =
        (ovs.map (fun ov => ov.deliveries.length)).sum
  | [] => rfl
  | ov :: rest => by
    simp [flattenOvers, flattenOvers_length mi inum bt bw rest,
      flattenDeliveries_length mi inum bt bw ov.over 0 ov.deliveries]

lemma flattenInnings_map_position (mi : MatchInfo) :
    ∀ (k : Nat) (inns : List InningsBlock),
      (flattenInnings mi k inns).map
          (fun r => (r.innings_num, r.over, r.ball)) =
        ((inns.enumFrom k).map (fun p =>
          ((p.2.overs.map (fun ov =>
            ov.deliveries.enum.map
              (fun q => (p.1 + 1, ov.over, q.1 + 1)))).flatten))).flatten
  | _, [] => rfl
  | k, inn :: rest => by
    simp [flattenInnings, List.enumFrom,
      flattenInnings_map_position mi (k + 1) rest,
      flattenOvers_map_position]

lemma flattenInnings_length (mi : MatchInfo) :
    ∀ (k : Nat) (inns : List InningsBlock),
      (flattenInnings mi k inns).length =
        (inns.map
          (fun inn => (inn.overs.map (fun ov => ov.deliveries.length)).sum)).sum
  | _, [] => rfl
  | k, inn :: rest => by
    simp [flattenInnings, flattenInnings_length mi (k + 1) rest,
      flattenOvers_length]

/-- Claim C3: for every match document, the delivery flattener produces exactly
one row per delivery of the document, and the rows appear in document
order: by innings, then by over within the innings, then by delivery
within the over. -/
theorem extract_deliveries_count_and_order (data : MatchDocument)
    (match_info : MatchInfo) :
    (_extract_deliveries data match_info).length = totalDeliveries data ∧
    (_extract_deliveries data match_info).map
        (fun r => (r.innings_num, r.over, r.ball)) = documentOrder data := by
  constructor
  · simpa [_extract_deliveries, totalDeliveries] using
      flattenInnings_length match_info 0 data.innings
  · simpa [_extract_deliveries, documentOrder, List.enum] using
      flattenInnings_map_position match_info 0 data.innings

/-! ### Wicket extraction -/

/-- Claim C4: for every delivery, the flattened row has `is_wicket = 1` exactly
when the delivery's wicket list is non-empty; when `is_wicket = 0` all
four wicket-detail fields are null; and when the wicket list has several
entries, the wicket fields are populated from the first entry alone. -/
theorem parse_delivery_wicket_spec (delivery : Delivery)
    (match_info : MatchInfo) (innings_num : Nat)
    (batting_team bowling_team : Option String) (over_num : Option Int)
    (ball_idx : Nat) :
    let r := _parse_delivery delivery match_info innings_num batting_team
      bowling_team over_num ball_idx
    (r.is_wicket = 1 ↔ delivery.wickets ≠ []) ∧
    (r.is_wicket = 0 →
      r.player_out = none ∧ r.dismissal_kind = none ∧
      r.fielder_1 = none ∧ r.fielder_2 = none) ∧
    (∀ w rest, delivery.wickets = w :: rest →
      r.player_out = w.player_out ∧ r.dismissal_kind = w.kind ∧
      r.fielder_1 = (_extract_fielder_names w.fielders)[0]? ∧
      r.fielder_2 = (_extract_fielder_names w.fielders)[1]?) := by
  cases h : delivery.wickets with
  | nil =>
    refine ⟨by simp [_parse_delivery, h], by simp [_parse_delivery, h], ?_⟩
    intro w rest hw
    simp [h] at hw
  | cons w0 rest0 =>
    refine ⟨by simp [_parse_delivery, h], by simp [_parse_delivery, h], ?_⟩
    intro w rest hw
    injection hw with h1 h2
    subst h1
    simp [_parse_delivery, h]

/-- A wicket entry with a dismissed player, a kind, and two fielders (one
in bare-string form, one in object form). -/
def wicketFirst : Wicket :=
  { player_out := some "P", kind := some "run out"
    fielders := [Fielder.str "F1", Fielder.obj (some "F2")] }

/-- A second wicket entry on the same delivery, which must not populate
any field. -/
def wicketSecond : Wicket :=
  { player_out := some "Q", kind := some "hit wicket", fielders := [] }

/-- A delivery on which two wickets fell. -/
def doubleWicketDelivery : Delivery :=
  { blankDelivery with wickets := [wicketFirst, wicketSecond] }

/-- A match-metadata fixture. -/
def infoExample : MatchInfo :=
  { match_id := "m1", start_date := DateCell.str "2020-01-01"
    team_a := some "A", team_b := some "B"
    outcome_winner := some "A", outcome_result := none }

theorem parse_delivery_wicket_spec_witness :
    (_parse_delivery doubleWicketDelivery infoExample 1 (some "A") (some "B")
        (some 0) 0).is_wicket = 1 ∧
    (_parse_delivery doubleWicketDelivery infoExample 1 (some "A") (some "B")
        (some 0) 0).player_out = some "P" ∧
    (_parse_delivery doubleWicketDelivery infoExample 1 (some "A") (some "B")
        (some 0) 0).fielder_1 = some "F1" ∧
    (_parse_delivery doubleWicketDelivery infoExample 1 (some "A") (some "B")
        (some 0) 0).fielder_2 = some "F2" := by
  have h := parse_delivery_wicket_spec doubleWicketDelivery infoExample 1
    (some "A") (some "B") (some 0) 0
  have h3 := h.2.2 wicketFirst [wicketSecond] rfl
  exact ⟨h.1.mpr (by decide), h3.1, h3.2.2.1.trans rfl, h3.2.2.2.trans rfl⟩

/-! ### Bowling-team inference -/

/-- The bowling team the flattener stores for a given batting team:
whichever of `team_a`/`team_b` the batting team is not (Python `==` on
possibly-null values), null when it matches neither. -/
def bowlingTeamFor (match_info : MatchInfo) (batting_team : Option String) :
    Option String :=
  if batting_team = match_info.team_a then match_info.team_b
  else if batting_team = match_info.team_b then match_info.team_a
  else none

lemma mem_flattenDeliveries_teams (mi : MatchInfo) (inum : Nat)
    (bt bw : Option String) (onum : Option Int) :
    ∀ (n : Nat) (ds : List Delivery) (r : BallRecord),
      r ∈ flattenDeliveries mi inum bt bw onum n ds →
      r.batting_team = bt ∧ r.bowling_team = bw := by
  intro n ds
  induction ds generalizing n with
  | nil => intro r hr; simp [flattenDeliveries] at hr
  | cons d rest ih =>
    intro r hr
    rw [flattenDeliveries, List.mem_cons] at hr
    rcases hr with hr | hr
    · subst hr; exact ⟨rfl, rfl⟩
    · exact ih (n + 1) r hr

lemma mem_flattenOvers_teams (mi : MatchInfo) (inum : Nat)
    (bt bw : Option String) :
    ∀ (ovs : List OverBlock) (r : BallRecord),
      r ∈ flattenOvers mi inum bt bw ovs →
      r.batting_team = bt ∧ r.bowling_team = bw := by
  intro ovs
  induction ovs with
  | nil => intro r hr; simp [flattenOvers] at hr
  | cons ov rest ih =>
    intro r hr
    rw [flattenOvers, List.mem_append] at hr
    rcases hr with hr | hr
    · exact mem_flattenDeliveries_teams mi inum bt bw ov.over 0 ov.deliveries r hr
    · exact ih r hr

lemma mem_flattenInnings_teams (mi : MatchInfo) :
    ∀ (k : Nat) (inns : List InningsBlock) (r : BallRecord),
      r ∈ flattenInnings mi k inns →
      r.bowling_team = bowlingTeamFor mi r.batting_team := by
  intro k inns
  induction inns generalizing k with
  | nil => intro r hr; simp [flattenInnings] at hr
  | cons inn rest ih =>
    intro r hr
    rw [flattenInnings, List.mem_append] at hr
    rcases hr with hr | hr
    · have h := mem_flattenOvers_teams mi (k + 1) inn.team
        (bowlingTeamFor mi inn.team) inn.overs r (by
          simpa [bowlingTeamFor] using hr)
      rw [h.2, h.1]
    · exact ih (k + 1) r hr

/-- A match document whose team list names the same team twice; its only
innings is batted by that team. -/
def duplicateTeamsDoc : MatchDocument :=
  { teams := ["X", "X"], dates := []
    outcome_winner := none, outcome_result := none
    innings := [{ team := some "X"
                  overs := [{ over := some 0
                              deliveries := [blankDelivery] }] }] }

/-- Claim C5, counterexample: on a document with a duplicated team name the
flattener emits a row whose `bowling_team` equals its `batting_team`, so
the claimed invariant fails as stated. -/
theorem bowling_team_counterexample :
    (_extract_deliveries duplicateTeamsDoc
        (_extract_match_info duplicateTeamsDoc "m1")).map
        (fun r => (r.batting_team, r.bowling_team)) =
      [(some "X", some "X")] := by
  decide

/-- Claim C5, amended: for every row the flattener produces, `bowling_team` is
one of `team_a`, `team_b`, or null; and when the metadata records two
distinct non-null teams, `bowling_team` differs from every non-null
`batting_team` and is null only when `batting_team` matches neither
team. -/
theorem bowling_team_inference_spec (doc : MatchDocument)
    (match_info : MatchInfo) (a b : String)
    (ha : match_info.team_a = some a) (hb : match_info.team_b = some b)
    (hab : a ≠ b) :
    ∀ r ∈ _extract_deliveries doc match_info,
      (r.bowling_team = match_info.team_a ∨
        r.bowling_team = match_info.team_b ∨ r.bowling_team = none) ∧
      (r.batting_team ≠ none → r.bowling_team ≠ r.batting_team) ∧
      (r.bowling_team = none →
        r.batting_team ≠ match_info.team_a ∧
        r.batting_team ≠ match_info.team_b) := by
  intro r hr
  have hbw := mem_flattenInnings_teams match_info 0 doc.innings r hr
  have hone : r.bowling_team =
      (if r.batting_team = some a then some b
       else if r.batting_team = some b then some a else none) := by
    rw [hbw]; unfold bowlingTeamFor; rw [ha, hb]
  rw [ha, hb, hone]
  by_cases h1 : r.batting_team = some a
  · rw [if_pos h1]
    refine ⟨Or.inr (Or.inl rfl), ?_, by simp⟩
    intro _
    rw [h1]
    exact fun hba => hab (Option.some.inj hba).symm
  · rw [if_neg h1]
    by_cases h2 : r.batting_team = some b
    · rw [if_pos h2]
      refine ⟨Or.inl rfl, ?_, by simp⟩
      intro _
      rw [h2]
      exact fun hba => hab (Option.some.inj hba)
    · rw [if_neg h2]
      exact ⟨Or.inr (Or.inr rfl), fun hbt heq => hbt heq.symm,
        fun _ => ⟨h1, h2⟩⟩

/-- The single row the duplicated-teams document flattens to under the
`infoExample` metadata (whose teams are `A` and `B`). -/
def recordUnderAB : BallRecord :=
  _parse_delivery blankDelivery infoExample 1 (some "X") none (some 0) 0

theorem bowling_team_inference_spec_witness :
    (recordUnderAB.bowling_team = infoExample.team_a ∨
      recordUnderAB.bowling_team = infoExample.team_b ∨
      recordUnderAB.bowling_team = none) ∧
    (recordUnderAB.batting_team ≠ none →
      recordUnderAB.bowling_team ≠ recordUnderAB.batting_team) ∧
    (recordUnderAB.bowling_team = none →
      recordUnderAB.batting_team ≠ infoExample.team_a ∧
      recordUnderAB.batting_team ≠ infoExample.team_b) :=
  bowling_team_inference_spec duplicateTeamsDoc infoExample "A" "B" rfl rfl
    (by decide) recordUnderAB (by decide)

/-! ### Per-row outcome validation -/

/-- Claim C2: for every per-match summary row the validator skips the row
(records no discrepancy) when no winner is recorded or the recorded
result is a draw, tie, or no result; otherwise the calculated winner is
the team with strictly greater summed runs (null when the totals are
equal) and a discrepancy — carrying both winners and both teams' run
totals — is recorded exactly when it differs from the recorded winner. -/
theorem find_outcome_discrepancies_row_spec (row : MatchSummary) :
    (row.outcome_winner = none → discrepancy_of_row row = none) ∧
    (row.outcome_result ∈ [some "draw", some "tie", some "no result"] →
      discrepancy_of_row row = none) ∧
    (row.outcome_winner ≠ none →
      row.outcome_result ∉ [some "draw", some "tie", some "no result"] →
      (let cw :=
        if row.team_b_runs < row.team_a_runs then row.team_a
        else if row.team_a_runs < row.team_b_runs then row.team_b
        else none
      (row.team_a_runs = row.team_b_runs → cw = none) ∧
      ((discrepancy_of_row row).isSome = true ↔ cw ≠ row.outcome_winner) ∧
      (∀ d, discrepancy_of_row row = some d →
        d.calculated_winner = cw ∧ d.outcome_winner = row.outcome_winner ∧
        d.team_a = row.team_a ∧ d.team_b = row.team_b ∧
        d.team_a_runs = row.team_a_runs ∧
        d.team_b_runs = row.team_b_runs))) := by
  refine ⟨?_, ?_, ?_⟩
  · intro h
    simp [discrepancy_of_row, h]
  · intro h
    simp [discrepancy_of_row, h]
  · intro hw hres
    have hskip : ¬(row.outcome_winner = none ∨
        row.outcome_result ∈ [some "draw", some "tie", some "no result"]) := by
      push_neg
      exact ⟨hw, hres⟩
    have hgt : (row.team_b_runs < row.team_a_runs) =
        (row.team_a_runs > row.team_b_runs) := by
      simp [gt_iff_lt]
    refine ⟨?_, ?_, ?_⟩
    · intro heq
      simp [heq]
    · rw [discrepancy_of_row, if_neg hskip]
      by_cases hne :
          (if row.team_a_runs > row.team_b_runs then row.team_a
           else if row.team_b_runs > row.team_a_runs then row.team_b
           else none) ≠ row.outcome_winner
      · rw [if_pos hne]
        simpa [gt_iff_lt] using hne
      · rw [if_neg hne]
        simpa [gt_iff_lt] using hne
    · intro d hd
      rw [discrepancy_of_row, if_neg hskip] at hd
      by_cases hne :
          (if row.team_a_runs > row.team_b_runs then row.team_a
           else if row.team_b_runs > row.team_a_runs then row.team_b
           else none) ≠ row.outcome_winner
      · rw [if_pos hne] at hd
        injection hd with hd
        subst hd
        simp [gt_iff_lt]
      · rw [if_neg hne] at hd
        exact absurd hd (by simp)

/-- A summary row for a match team A won on runs (250 to 200) while team
B is recorded as the winner. -/
def summaryRowExample : MatchSummary :=
  { match_id := "m1", team_a := some "A", team_b := some "B"
    outcome_winner := some "B", outcome_result := none
    team_a_runs := 250, team_b_runs := 200
    team_a_wickets := 10, team_b_wickets := 10 }

theorem find_outcome_discrepancies_row_spec_witness :
    (discrepancy_of_row summaryRowExample).isSome = true := by
  have h := (find_outcome_discrepancies_row_spec summaryRowExample).2.2
    (by decide) (by decide)
  exact h.2.1.mpr (by decide)

/-! ### Corpus-level error handling -/

lemma parse_all_empty_components (files : List SourceFile)
    (h : ∀ f ∈ files, _parse_single_file f = some []) :
    (files.map _parse_single_file).filterMap id =
      List.replicate files.length [] ∧
    (files.map _parse_single_file).countP Option.isNone = 0 := by
  induction files with
  | nil => exact ⟨rfl, rfl⟩
  | cons f rest ih =>
    have hf : _parse_single_file f = some [] := h f (List.mem_cons_self f rest)
    have hr := ih (fun g hg => h g (List.mem_cons_of_mem f hg))
    constructor
    · simp [hf, hr.1, List.replicate_succ]
    · simp [hf, hr.2, Option.isNone]

lemma filter_nonempty_replicate_nil :
    ∀ n : Nat,
      (List.replicate n ([] : List BallRecord)).filter
        (fun df => !df.isEmpty) = []
  | 0 => rfl
  | n + 1 => by
    simp [List.replicate_succ, filter_nonempty_replicate_nil n]

lemma ingest_all_all_empty (files : List SourceFile)
    (h : ∀ f ∈ files, _parse_single_file f = some []) :
    ingest_all files =
      { rows := [], success_count := files.length, error_count := 0
        warned := false } := by
  have hc := parse_all_empty_components files h
  simp only [ingest_all]
  rw [hc.1, hc.2, filter_nonempty_replicate_nil]
  simp

/-- Claim C6: the ingestor raises its missing-input error exactly when the
directory holds zero eligible files — on a non-empty file list the whole
pass returns normally whatever the per-file outcomes are — and when
every file parses but yields zero rows the result is an empty dataset
with no error and no warning. -/
theorem cmd_ingest_missing_input_spec (files : List SourceFile) :
    ((∃ m, cmd_ingest files = Except.error (PipelineError.fileNotFound m)) ↔
      files = []) ∧
    (files ≠ [] → cmd_ingest files = Except.ok (ingest_all files)) ∧
    (files ≠ [] → (∀ f ∈ files, _parse_single_file f = some []) →
      cmd_ingest files = Except.ok
        { rows := [], success_count := files.length, error_count := 0
          warned := false }) := by
  refine ⟨⟨?_, ?_⟩, ?_, ?_⟩
  · intro ⟨m, hm⟩
    cases files with
    | nil => rfl
    | cons f rest => simp [cmd_ingest] at hm
  · intro h
    subst h
    exact ⟨"No JSON files found", rfl⟩
  · intro h
    cases files with
    | nil => exact absurd rfl h
    | cons f rest => rfl
  · intro h hall
    cases files with
    | nil => exact absurd rfl h
    | cons f rest =>
      simp only [cmd_ingest]
      rw [ingest_all_all_empty (f :: rest) hall]

/-- A parseable match document with no innings: it flattens to zero rows
without being a parse failure. -/
def emptyDoc : MatchDocument :=
  { teams := ["A", "B"], dates := ["2020-01-01"]
    outcome_winner := none, outcome_result := none, innings := [] }

theorem cmd_ingest_missing_input_spec_witness :
    cmd_ingest [SourceFile.good "e" emptyDoc] = Except.ok
      { rows := [], success_count := 1, error_count := 0
        warned := false } := by
  have h := (cmd_ingest_missing_input_spec [SourceFile.good "e" emptyDoc]).2.2
    (by simp) (by intro f hf; rw [List.mem_singleton] at hf; subst hf; rfl)
  simpa using h

/-- Claim C7: a failing file is excluded from the result and leaves every other
file's rows intact, it adds one to the error count without touching the
success count, the aggregate warning fires on its presence, and in
general the warning fires exactly when at least one file failed; no
per-file failure escapes the pass (`ingest_all` returns a result for
every input list). -/
theorem ingest_all_isolates_failures (pre post : List SourceFile)
    (name : String) :
    (ingest_all (pre ++ SourceFile.bad name :: post)).rows =
      (ingest_all (pre ++ post)).rows ∧
    (ingest_all (pre ++ SourceFile.bad name :: post)).success_count =
      (ingest_all (pre ++ post)).success_count ∧
    (ingest_all (pre ++ SourceFile.bad name :: post)).error_count =
      (ingest_all (pre ++ post)).error_count + 1 ∧
    (ingest_all (pre ++ SourceFile.bad name :: post)).warned = true ∧
    (∀ files : List SourceFile,
      (ingest_all files).warned = true ↔
        0 < (ingest_all files).error_count) := by
  refine ⟨?_, ?_, ?_, ?_, ?_⟩
  · simp [ingest_all, _parse_single_file]
  · simp [ingest_all, _parse_single_file]
  · simp only [ingest_all, List.map_append, List.map_cons,
      List.countP_append, List.countP_cons, _parse_single_file]
    simp [Option.isNone]
    omega
  · simp only [ingest_all, List.map_append, List.map_cons,
      List.countP_append, List.countP_cons, _parse_single_file]
    simp [Option.isNone]
  · intro files
    simp [ingest_all]

/-! ### Temporal filter -/

/-- A row with its `start_date` cell blanked, for comparing all other
fields across the date conversion. -/
def withNullStart (r : BallRecord) : BallRecord :=
  { r with start_date := DateCell.null }

lemma convertDates_forall2 :
    ∀ (df conv : List BallRecord), convertDates df = some conv →
      List.Forall₂
        (fun r0 r => to_datetime r0.start_date = some r.start_date ∧
          withNullStart r0 = withNullStart r)
        df conv := by
  intro df
  induction df with
  | nil =>
    intro conv h
    simp only [convertDates] at h
    injection h with h
    subst h
    exact List.Forall₂.nil
  | cons r rest ih =>
    intro conv h
    simp only [convertDates] at h
    cases hc : to_datetime r.start_date with
    | none => rw [hc] at h; exact absurd h (by simp)
    | some c =>
      rw [hc] at h
      cases ht : convertDates rest with
      | none => rw [ht] at h; exact absurd h (by simp)
      | some tail =>
        rw [ht] at h
        simp only [Option.map_some] at h
        injection h with h
        subst h
        refine List.Forall₂.cons ⟨hc, rfl⟩ (ih tail ht)

lemma forall2_map_eq {α β γ : Type} {R : α → β → Prop} {g1 : α → γ}
    {g2 : β → γ} (hg : ∀ a b, R a b → g1 a = g2 b) :
    ∀ {l1 : List α} {l2 : List β}, List.Forall₂ R l1 l2 →
      l1.map g1 = l2.map g2 := by
  intro l1 l2 h
  induction h with
  | nil => rfl
  | cons hab _ ih => simp [hg _ _ hab, ih]

lemma forall2_mem_right {α β : Type} {R : α → β → Prop} :
    ∀ {l1 : List α} {l2 : List β}, List.Forall₂ R l1 l2 →
      ∀ b ∈ l2, ∃ a ∈ l1, R a b := by
  intro l1 l2 h
  induction h with
  | nil => intro b hb; exact absurd hb (by simp)
  | cons hab htail ih =>
    intro b hb
    rw [List.mem_cons] at hb
    rcases hb with hb | hb
    · subst hb
      exact ⟨_, List.mem_cons_self _ _, hab⟩
    · obtain ⟨a, ha, har⟩ := ih b hb
      exact ⟨a, List.mem_cons_of_mem _ ha, har⟩

/-- Claim C8, counterexample: a row surviving the temporal filter does not keep
its `start_date` field — the filter first rewrites the whole column with
`pd.to_datetime`, so the surviving row differs from the input row. -/
theorem modern_filter_field_mutation_counterexample :
    _modern_data_filter
        [{ blankRecord with start_date := DateCell.str "2020-01-01" }] 2015 =
      some [{ blankRecord with start_date := DateCell.date 2020 1 1 }] ∧
    ({ blankRecord with start_date := DateCell.date 2020 1 1 } : BallRecord) ≠
      { blankRecord with start_date := DateCell.str "2020-01-01" } := by
  exact ⟨by decide, by decide⟩

/-- Claim C8, amended: the temporal filter only removes rows as far as every
field other than `start_date` is concerned — the surviving rows are a
subsequence of the input on those fields — while each survivor's
`start_date` is replaced by the parsed date of the original cell, whose
year clears the cutoff. -/
theorem modern_filter_removal_and_rewrite (df : List BallRecord)
    (year : Nat) (out : List BallRecord)
    (h : _modern_data_filter df year = some out) :
    (out.map withNullStart).Sublist (df.map withNullStart) ∧
    ∀ r ∈ out, ∃ y m d, r.start_date = DateCell.date y m d ∧ year ≤ y ∧
      ∃ r0 ∈ df, withNullStart r0 = withNullStart r ∧
        to_datetime r0.start_date = some r.start_date := by
  simp only [_modern_data_filter] at h
  cases hc : convertDates df with
  | none => rw [hc] at h; exact absurd h (by simp)
  | some conv =>
    rw [hc] at h
    have h2 : (some (conv.filter (keepsRow year)) :
        Option (List BallRecord)) = some out := h
    injection h2 with h3
    subst h3
    have hf2 := convertDates_forall2 df conv hc
    constructor
    · have hsub : ((conv.filter (keepsRow year)).map withNullStart).Sublist
          (conv.map withNullStart) :=
        (List.filter_sublist conv).map withNullStart
      have hmap : conv.map withNullStart = df.map withNullStart :=
        (forall2_map_eq (fun a b hab => hab.2) hf2).symm
      rw [hmap] at hsub
      exact hsub
    · intro r hr
      rw [List.mem_filter] at hr
      have hkeep := hr.2
      obtain ⟨r0, hr0, hrel⟩ := forall2_mem_right hf2 r hr.1
      cases hd : r.start_date with
      | null => rw [keepsRow, hd] at hkeep; exact absurd hkeep (by simp)
      | str s => rw [keepsRow, hd] at hkeep; exact absurd hkeep (by simp)
      | date y m d =>
        refine ⟨y, m, d, rfl, ?_, r0, hr0, hrel.2, ?_⟩
        · rw [keepsRow, hd] at hkeep
          exact of_decide_eq_true hkeep
        · rw [← hd]
          exact hrel.1

theorem modern_filter_removal_and_rewrite_witness :
    (([{ blankRecord with start_date := DateCell.date 2020 1 1 }].map
        withNullStart).Sublist
      ([{ blankRecord with start_date := DateCell.str "2020-01-01" }].map
        withNullStart)) := by
  exact (modern_filter_removal_and_rewrite
    [{ blankRecord with start_date := DateCell.str "2020-01-01" }] 2015
    [{ blankRecord with start_date := DateCell.date 2020 1 1 }]
    (by decide)).1

/-- Claim C10: a row whose `start_date` is null is removed by the temporal
filter whatever the cutoff year is: the null cell converts to `NaT`,
whose year satisfies no comparison, so the filtered dataset is the same
with or without the row. -/
theorem null_start_date_rows_removed (r : BallRecord)
    (df : List BallRecord) (year : Nat) (h : r.start_date = DateCell.null) :
    _modern_data_filter (r :: df) year = _modern_data_filter df year := by
  simp only [_modern_data_filter, convertDates, h, to_datetime]
  cases convertDates df with
  | none => rfl
  | some conv => simp [keepsRow]

theorem null_start_date_rows_removed_witness :
    _modern_data_filter [blankRecord] 2015 = _modern_data_filter [] 2015 :=
  null_start_date_rows_removed blankRecord [] 2015 rfl

/-! ### Validator scope inside clean_data -/

/-- A pre-cutoff row of match `m1`: team A batting, 10 runs, with team B
recorded as winner. -/
def rowOldA : BallRecord :=
  { blankRecord with
      start_date := DateCell.str "2014-01-01"
      team_a := some "A", team_b := some "B"
      outcome_winner := some "B"
      batting_team := some "A", runs_total := some 10 }

/-- A pre-cutoff row of match `m1`: team B batting, 5 runs. -/
def rowOldB : BallRecord :=
  { blankRecord with
      start_date := DateCell.str "2014-01-01"
      team_a := some "A", team_b := some "B"
      outcome_winner := some "B"
      batting_team := some "B", runs_total := some 5 }

/-- Claim C1, counterexample: on a dataset whose only match predates the cutoff,
`clean_data` returns zero rows yet reports one outcome discrepancy, while
the validator run on the rows that survive the temporal filter reports
none — the discrepancy set is not computed from the surviving rows. -/
theorem clean_data_post_filter_counterexample :
    (clean_data [rowOldA, rowOldB] 2015).map
        (fun p => (p.1, p.2.length)) = some ([], 1) ∧
    (_modern_data_filter [rowOldA, rowOldB] 2015).map
        validate_match_outcomes = some [] := by
  exact ⟨by decide, by decide⟩

/-- Claim C1, amended: the outcome validator invoked from `clean_data` is a
read-only diagnostic pass over the preprocessor's stored pre-filter
dataset: the discrepancy set is computed from all rows of that dataset —
not from the rows surviving the temporal filter — and neither validation
nor discrepancy reporting mutates or drops any row of what `clean_data`
returns, which is exactly the output of the temporal filter. -/
theorem clean_data_validates_pre_filter (df : List BallRecord) (year : Nat)
    (filtered : List BallRecord) (discs : List Discrepancy)
    (h : clean_data df year = some (filtered, discs)) :
    discs = _find_outcome_discrepancies (_calculate_match_totals df) ∧
    _modern_data_filter df year = some filtered := by
  unfold clean_data at h
  cases hm : _modern_data_filter df year with
  | none => rw [hm] at h; exact absurd h (by simp)
  | some fl =>
    rw [hm] at h
    have h2 : (some (fl, validate_match_outcomes df) :
        Option (List BallRecord × List Discrepancy)) =
        some (filtered, discs) := h
    injection h2 with h3
    injection h3 with h4 h5
    subst h4
    subst h5
    exact ⟨rfl, rfl⟩

theorem clean_data_validates_pre_filter_witness :
    _modern_data_filter [rowOldA, rowOldB] 2015 = some [] :=
  (clean_data_validates_pre_filter [rowOldA, rowOldB] 2015 []
    (validate_match_outcomes [rowOldA, rowOldB]) rfl).2

/-! ### CLI exit boundary -/

/-- Claim C9, counterexample: the exit raised by the missing-input path of the
pipeline and the exit raised by any other failure both carry status 1 —
the exit statuses are not distinguishable. -/
theorem main_exit_counterexample :
    (main_exit ((cmd_ingest []).map (fun _ => ()))).map
        (fun c => c.code) = some 1 ∧
    (main_exit (Except.error (PipelineError.other "boom"))).map
        (fun c => c.code) = some 1 := by
  exact ⟨rfl, rfl⟩

/-- Claim C9, amended: the CLI exits with status 1 (non-zero) on every unhandled
failure; the missing-input kind is distinguished from other failures only
by the logging branch taken (plain error message versus exception with
traceback), not by the exit status, which is 1 in both cases. -/
theorem main_exit_spec (e : PipelineError) :
    (∃ c, main_exit (Except.error e) = some c ∧ c.code ≠ 0) ∧
    (∀ m, main_exit (Except.error (PipelineError.fileNotFound m)) =
      some (ExitOutcome.mk 1 false)) ∧
    (∀ m, main_exit (Except.error (PipelineError.other m)) =
      some (ExitOutcome.mk 1 true)) ∧
    main_exit (Except.ok ()) = none := by
  refine ⟨?_, fun m => rfl, fun m => rfl, rfl⟩
  cases e with
  | fileNotFound m => exact ⟨ExitOutcome.mk 1 false, rfl, by decide⟩
  | other m => exact ⟨ExitOutcome.mk 1 true, rfl, by decide⟩

end Howzat
